import Mathlib

/-!
Shallow embedding of `cfgrib/bindings.py`, a cffi binding layer over the
native ecCodes library.

Modelling conventions:
* Native opaque pointers (message handles, index handles) are `Nat`, with
  `0` standing for `ffi.NULL`.
* Python `bytes`/`str` values that only act as identifiers (keys, paths,
  sample names) are Lean `String`s.
* A Python function that may raise returns `Except PyExc α`; the Python
  exception classes become constructors of `PyExc`.
* The native library itself is an oracle: a `Lib` structure whose fields
  give the status code each native entry point returns and the data it
  writes through its out-parameters.  The integer constants exported by
  the ecCodes header (`GRIB_SUCCESS`, `GRIB_END_OF_FILE`, ...) are fields
  of `Lib` as well, since the header is an external collaborator.
* C output buffers of a fixed allocation size are modelled by `cBuffer`:
  the native write fills at most `size` cells, the rest keep their
  zero-initialised contents, and reading the buffer back yields exactly
  `size` elements.
* Functions whose observable effect is which native entry point they
  invoke (`codes_index_select`, `codes_set_array`) additionally return
  the list of native calls they issued, so that routing claims are
  statable.
-/

/-- Python `bytes` (and `str`) used as opaque identifiers. -/
abbrev Bytes := String

/-- The null native pointer `ffi.NULL`. -/
def ffi_NULL : Nat := 0

/-- The Python exception classes raised by `bindings.py`.
`EcCodesError` stores the native status code and the description obtained
from `grib_get_error_message` (the `eccode_message` attribute). -/
inductive PyExc where
  | EcCodesError (code : Int) (eccode_message : String)
  | EOFError (message : String)
  | TypeError (message : String)
  | ValueError (message : String)
  | RuntimeError (message : String)
  | NotImplementedError (message : String)
  deriving DecidableEq, Repr

/-- A Python runtime value, as far as the dynamic-type dispatch in
`codes_index_select` / `codes_set` / `codes_set_array` can observe it.
`float` payloads are rationals (no floating-point arithmetic is performed
by this layer, values are only passed through to the native side).
`str` and `none_` represent values of the "unrecognised" dynamic types. -/
inductive PyVal where
  | int (n : Int)
  | bool (b : Bool)
  | float (x : ℚ)
  | bytes (s : Bytes)
  | str (s : String)
  | none_
  deriving DecidableEq, Repr

/-- Python `isinstance(v, int)`: `bool` is a subclass of `int`. -/
def PyVal.isinstance_int : PyVal → Bool
  | .int _ => true
  | .bool _ => true
  | _ => false

/-- Python `isinstance(v, float)`. -/
def PyVal.isinstance_float : PyVal → Bool
  | .float _ => true
  | _ => false

/-- Python `isinstance(v, bytes)`. -/
def PyVal.isinstance_bytes : PyVal → Bool
  | .bytes _ => true
  | _ => false

/-- Python `type(v).__name__`, used in error messages. -/
def PyVal.typeName : PyVal → String
  | .int _ => "int"
  | .bool _ => "bool"
  | .float _ => "float"
  | .bytes _ => "bytes"
  | .str _ => "str"
  | .none_ => "NoneType"

/-- Ground truth the native library holds for one (handle, key) pair:
the stored array values per native representation and the scalar value
each scalar `get` would produce. -/
structure KeyInfo where
  long_values : List Int
  double_values : List ℚ
  string_values : List Bytes
  bytes_values : List Nat
  long_scalar : Int
  double_scalar : ℚ
  string_scalar : Bytes

/-- The native calls observable from the dispatch functions. -/
inductive NativeCall where
  | index_select_long (indexid : Nat) (key : Bytes) (value : Int)
  | index_select_double (indexid : Nat) (key : Bytes) (value : ℚ)
  | index_select_string (indexid : Nat) (key : Bytes) (value : Bytes)
  | set_long_array (handle : Nat) (key : Bytes) (values : List Int)
  | set_double_array (handle : Nat) (key : Bytes) (values : List ℚ)
  deriving DecidableEq, Repr

/-- Oracle for the native ecCodes library (`lib` in the source): header
constants, the error-message table, per-key ground truth, and the status
code every wrapped native entry point returns on a given invocation. -/
structure Lib where
  GRIB_SUCCESS : Int
  GRIB_END_OF_FILE : Int
  GRIB_NULL_POINTER : Int
  GRIB_TYPE_UNDEFINED : Int
  GRIB_TYPE_LONG : Int
  GRIB_TYPE_DOUBLE : Int
  GRIB_TYPE_STRING : Int
  GRIB_TYPE_BYTES : Int
  GRIB_TYPE_SECTION : Int
  GRIB_TYPE_LABEL : Int
  GRIB_TYPE_MISSING : Int
  /-- Result of `lib.grib_get_error_message(code)`, already decoded to text. -/
  grib_get_error_message : Int → String
  /-- per-(handle, key) stored values. -/
  keys : Nat → Bytes → KeyInfo
  /-- what `codes_get_native_type` writes to its out-parameter. -/
  native_type : Nat → Bytes → Int
  /-- what `codes_get_size` writes to its out-parameter. -/
  size_out : Nat → Bytes → Nat
  /-- what `codes_get_length` writes to its out-parameter. -/
  length_out : Nat → Bytes → Nat
  get_size_ret : Nat → Bytes → Int
  get_length_ret : Nat → Bytes → Int
  get_native_type_ret : Nat → Bytes → Int
  get_long_array_ret : Nat → Bytes → Nat → Int
  get_double_array_ret : Nat → Bytes → Nat → Int
  get_bytes_ret : Nat → Bytes → Nat → Int
  get_string_array_ret : Nat → Bytes → Nat → Int
  get_long_ret : Nat → Bytes → Int
  get_double_ret : Nat → Bytes → Int
  get_string_ret : Nat → Bytes → Int
  index_select_long_ret : Nat → Bytes → Int → Int
  index_select_double_ret : Nat → Bytes → ℚ → Int
  index_select_string_ret : Nat → Bytes → Bytes → Int
  set_long_array_ret : Nat → Bytes → List Int → Int
  set_double_array_ret : Nat → Bytes → List ℚ → Int
  /-- handle returned by `lib.codes_grib_handle_new_from_samples`
  (`0` = NULL). -/
  grib_sample_handle : Bytes → Nat
  /-- handle returned by `lib.codes_bufr_handle_new_from_samples`. -/
  bufr_sample_handle : Bytes → Nat
  /-- handle produced by the Windows `portable_handle_new_from_samples`
  workaround (`0` = NULL, which is also what it yields off-Windows). -/
  portable_sample_handle : Bytes → Nat → Nat
  /-- value returned by `lib.codes_get_api_version()` (a C long). -/
  codes_get_api_version : Int

-- Product-kind constants (module-level constants of the source).
def CODES_PRODUCT_ANY : Nat := 0
def CODES_PRODUCT_GRIB : Nat := 1
def CODES_PRODUCT_BUFR : Nat := 2
def CODES_PRODUCT_METAR : Nat := 3
def CODES_PRODUCT_GTS : Nat := 4
def CODES_PRODUCT_TAF : Nat := 5

-- Missing-value sentinels (module-level constants of the source).
def GRIB_MISSING_LONG : Int := 2147483647

-- Key-type aliases: `CODES_TYPE_x = lib.GRIB_TYPE_x`.
def CODES_TYPE_LONG (lib : Lib) : Int := lib.GRIB_TYPE_LONG
def CODES_TYPE_DOUBLE (lib : Lib) : Int := lib.GRIB_TYPE_DOUBLE
def CODES_TYPE_STRING (lib : Lib) : Int := lib.GRIB_TYPE_STRING
def CODES_TYPE_BYTES (lib : Lib) : Int := lib.GRIB_TYPE_BYTES

/-- Construction of `EcCodesError(code)`: the `eccode_message` attribute
is `grib_get_error_message(code)`. -/
def mkEcCodesError (lib : Lib) (code : Int) : PyExc :=
  PyExc.EcCodesError code (lib.grib_get_error_message code)

/-- Wrapper `check_return(func)` collapsed over the already-performed native
call: the wrapper raises `EcCodesError(code)` when the returned status
differs from `GRIB_SUCCESS`, and returns `None` otherwise. -/
def check_return (lib : Lib) (code : Int) : Except PyExc Unit :=
  if code ≠ lib.GRIB_SUCCESS then Except.error (mkEcCodesError lib code)
  else Except.ok ()

/-- Wrapper `check_last(func)` collapsed over the already-performed native call:
the wrapper inspects the out-parameter status `code` and raises
`EcCodesError(code)` when it differs from `GRIB_SUCCESS`; otherwise it
passes the native return value through. -/
def check_last {α : Type} (lib : Lib) (retval : α) (code : Int) :
    Except PyExc α :=
  if code ≠ lib.GRIB_SUCCESS then Except.error (mkEcCodesError lib code)
  else Except.ok retval

/-- Embeds `codes_handle_new_from_file(fileobj, product_kind, context)`.
The native call's outputs are supplied as the oracle arguments `retval`
(the returned handle, `0` = NULL) and `code` (the out-parameter status).
The `try/except` converts an `EcCodesError` whose code is
`GRIB_END_OF_FILE` into `EOFError`; a NULL handle under a success status
also becomes `EOFError`. -/
def codes_handle_new_from_file (lib : Lib) (fileobj : String)
    (retval : Nat) (code : Int) : Except PyExc Nat :=
  let body : Except PyExc Nat :=
    match check_last lib retval code with
    | Except.error e => Except.error e
    | Except.ok r =>
        if r = ffi_NULL then
          Except.error (PyExc.EOFError ("End of file: " ++ fileobj))
        else
          Except.ok r
  match body with
  | Except.error (PyExc.EcCodesError c m) =>
      if c = lib.GRIB_END_OF_FILE then
        Except.error (PyExc.EOFError ("End of file: " ++ fileobj))
      else
        Except.error (PyExc.EcCodesError c m)
  | r => r

/-- Python `is` identity between a cdata freshly returned by a cffi
call and the `ffi.NULL` singleton.  cffi allocates a new cdata object
for every call result, so the identity test is false even when the
returned pointer value is NULL (unlike the `==` value comparison used
elsewhere in the source). -/
def cdata_is_ffi_NULL (_cloned : Nat) : Bool := false

/-- Embeds `codes_handle_clone(handle)`: `cloned` is the handle the native
`codes_handle_clone` returned (`0` = NULL).  The source guards the
null-pointer raise with `cloned_handle is ffi.NULL` — an identity test,
not a value comparison — modelled by `cdata_is_ffi_NULL`. -/
def codes_handle_clone (lib : Lib) (cloned : Nat) : Except PyExc Nat :=
  if cdata_is_ffi_NULL cloned then
    Except.error (mkEcCodesError lib lib.GRIB_NULL_POINTER)
  else
    Except.ok cloned

/-- A C output array of `size` cells, zero-initialised, into which the
native call wrote the values `written` (at most `size` of them fit).
Reading the whole buffer back (`list(values)`) yields `size` elements. -/
def cBuffer {α : Type} (written : List α) (size : Nat) (fill : α) :
    List α :=
  written.take size ++ List.replicate (size - written.length) fill

/-- Embeds `codes_get_size(handle, key)`: out-parameter size query wrapped in
`check_return`. -/
def codes_get_size (lib : Lib) (handle : Nat) (key : Bytes) :
    Except PyExc Nat := do
  let _ ← check_return lib (lib.get_size_ret handle key)
  pure (lib.size_out handle key)

/-- Embeds `codes_get_length(handle, key)`: string-representation length query
wrapped in `check_return`. -/
def codes_get_length (lib : Lib) (handle : Nat) (key : Bytes) :
    Except PyExc Nat := do
  let _ ← check_return lib (lib.get_length_ret handle key)
  pure (lib.length_out handle key)

/-- Embeds `codes_get_native_type(handle, key)`. -/
def codes_get_native_type (lib : Lib) (handle : Nat) (key : Bytes) :
    Except PyExc Int := do
  let _ ← check_return lib (lib.get_native_type_ret handle key)
  pure (lib.native_type handle key)

/-- Embeds `codes_get_bytes_array(handle, key, size)`: allocates
`unsigned char[size]`, lets the native call fill it, returns
`list(values)` — the whole buffer. -/
def codes_get_bytes_array (lib : Lib) (handle : Nat) (key : Bytes)
    (size : Nat) : Except PyExc (List Nat) := do
  let _ ← check_return lib (lib.get_bytes_ret handle key size)
  pure (cBuffer (lib.keys handle key).bytes_values size 0)

/-- Embeds `codes_get_long_array(handle, key, size)`: allocates `long[size]`,
native fill, returns the whole buffer. -/
def codes_get_long_array (lib : Lib) (handle : Nat) (key : Bytes)
    (size : Nat) : Except PyExc (List Int) := do
  let _ ← check_return lib (lib.get_long_array_ret handle key size)
  pure (cBuffer (lib.keys handle key).long_values size 0)

/-- Embeds `codes_get_double_array(handle, key, size)`: allocates
`double[size]`, native fill, returns the whole buffer. -/
def codes_get_double_array (lib : Lib) (handle : Nat) (key : Bytes)
    (size : Nat) : Except PyExc (List ℚ) := do
  let _ ← check_return lib (lib.get_double_array_ret handle key size)
  pure (cBuffer (lib.keys handle key).double_values size 0)

/-- Embeds `codes_get_string_array(handle, key, size, length)`: `length`
defaults to `codes_get_length`; allocates `size` buffers of `length`
chars each; the native call writes at most `size` strings (each cut to
its buffer) and sets the in/out size to the number written; the result
reads back exactly that many strings (`range(size_p[0])`). -/
def codes_get_string_array (lib : Lib) (handle : Nat) (key : Bytes)
    (size : Nat) (length : Option Nat) : Except PyExc (List Bytes) := do
  let len ← match length with
    | none => codes_get_length lib handle key
    | some l => pure l
  let _ ← check_return lib (lib.get_string_array_ret handle key size)
  let svals := (lib.keys handle key).string_values
  pure ((svals.map (fun s => s.take len)).take (min size svals.length))

/-- Embeds `codes_get_long(handle, key)`. -/
def codes_get_long (lib : Lib) (handle : Nat) (key : Bytes) :
    Except PyExc Int := do
  let _ ← check_return lib (lib.get_long_ret handle key)
  pure (lib.keys handle key).long_scalar

/-- Embeds `codes_get_double(handle, key)`. -/
def codes_get_double (lib : Lib) (handle : Nat) (key : Bytes) :
    Except PyExc ℚ := do
  let _ ← check_return lib (lib.get_double_ret handle key)
  pure (lib.keys handle key).double_scalar

/-- Embeds `codes_get_string(handle, key, length)`: `length` defaults to
`codes_get_length`; the value is read through a `char[length]` buffer. -/
def codes_get_string (lib : Lib) (handle : Nat) (key : Bytes)
    (length : Option Nat) : Except PyExc Bytes := do
  let len ← match length with
    | none => codes_get_length lib handle key
    | some l => pure l
  let _ ← check_return lib (lib.get_string_ret handle key)
  pure ((lib.keys handle key).string_scalar.take len)

/-- The heterogeneous result of `codes_get_array`, one constructor per
native array representation. -/
inductive ArrayValues where
  | longs (xs : List Int)
  | doubles (xs : List ℚ)
  | strings (xs : List Bytes)
  | bytes_ (xs : List Nat)
  deriving DecidableEq, Repr

/-- Number of elements of a `codes_get_array` result. -/
def ArrayValues.count : ArrayValues → Nat
  | .longs xs => xs.length
  | .doubles xs => xs.length
  | .strings xs => xs.length
  | .bytes_ xs => xs.length

/-- The scalar result of `codes_get`. -/
inductive ScalarValue where
  | long (x : Int)
  | double (x : ℚ)
  | string (s : Bytes)
  deriving DecidableEq, Repr

/-- Embeds `codes_get_array(handle, key, key_type, size, length, log)`:
`key_type` defaults to the native-type query, `size` to the size query;
dispatch on the key type; an uninterpreted type logs
`"Unknown GRIB key type: %r"` and returns `None`.  The first component
collects the warnings issued on the `log` object. -/
def codes_get_array (lib : Lib) (handle : Nat) (key : Bytes)
    (key_type : Option Int) (size : Option Nat) (length : Option Nat) :
    List String × Except PyExc (Option ArrayValues) :=
  let ktE : Except PyExc Int := match key_type with
    | none => codes_get_native_type lib handle key
    | some t => Except.ok t
  match ktE with
  | Except.error e => ([], Except.error e)
  | Except.ok kt =>
    let szE : Except PyExc Nat := match size with
      | none => codes_get_size lib handle key
      | some s => Except.ok s
    match szE with
    | Except.error e => ([], Except.error e)
    | Except.ok sz =>
      if kt = CODES_TYPE_LONG lib then
        ([], (codes_get_long_array lib handle key sz).map
          (fun xs => some (ArrayValues.longs xs)))
      else if kt = CODES_TYPE_DOUBLE lib then
        ([], (codes_get_double_array lib handle key sz).map
          (fun xs => some (ArrayValues.doubles xs)))
      else if kt = CODES_TYPE_STRING lib then
        ([], (codes_get_string_array lib handle key sz length).map
          (fun xs => some (ArrayValues.strings xs)))
      else if kt = CODES_TYPE_BYTES lib then
        ([], (codes_get_bytes_array lib handle key sz).map
          (fun xs => some (ArrayValues.bytes_ xs)))
      else
        (["Unknown GRIB key type: " ++ toString kt], Except.ok none)

/-- Embeds `codes_get(handle, key, key_type, length, log)`: scalar analogue of
`codes_get_array`; bytes is not an interpreted scalar type. -/
def codes_get (lib : Lib) (handle : Nat) (key : Bytes)
    (key_type : Option Int) (length : Option Nat) :
    List String × Except PyExc (Option ScalarValue) :=
  let ktE : Except PyExc Int := match key_type with
    | none => codes_get_native_type lib handle key
    | some t => Except.ok t
  match ktE with
  | Except.error e => ([], Except.error e)
  | Except.ok kt =>
    if kt = CODES_TYPE_LONG lib then
      ([], (codes_get_long lib handle key).map
        (fun x => some (ScalarValue.long x)))
    else if kt = CODES_TYPE_DOUBLE lib then
      ([], (codes_get_double lib handle key).map
        (fun x => some (ScalarValue.double x)))
    else if kt = CODES_TYPE_STRING lib then
      ([], (codes_get_string lib handle key length).map
        (fun s => some (ScalarValue.string s)))
    else
      (["Unknown GRIB key type: " ++ toString kt], Except.ok none)

/-- Embeds `codes_index_select_long(indexid, key, value)`: issues exactly the
native long-select call, wrapped in `check_return`. -/
def codes_index_select_long (lib : Lib) (indexid : Nat) (key : Bytes)
    (value : Int) : List NativeCall × Except PyExc Unit :=
  ([NativeCall.index_select_long indexid key value],
   check_return lib (lib.index_select_long_ret indexid key value))

/-- Embeds `codes_index_select_double(indexid, key, value)`. -/
def codes_index_select_double (lib : Lib) (indexid : Nat) (key : Bytes)
    (value : ℚ) : List NativeCall × Except PyExc Unit :=
  ([NativeCall.index_select_double indexid key value],
   check_return lib (lib.index_select_double_ret indexid key value))

/-- Embeds `codes_index_select_string(indexid, key, value)`. -/
def codes_index_select_string (lib : Lib) (indexid : Nat) (key : Bytes)
    (value : Bytes) : List NativeCall × Except PyExc Unit :=
  ([NativeCall.index_select_string indexid key value],
   check_return lib (lib.index_select_string_ret indexid key value))

/-- The message of the `RuntimeError` raised by `codes_index_select` on
an unrecognised value type ("Key value not recognised: %r %r (type %r)";
the `repr` renderings are abbreviated to the key and the type name). -/
def selectErrMsg (key : Bytes) (value : PyVal) : String :=
  "Key value not recognised: " ++ key ++ " (type " ++ value.typeName ++ ")"

/-- Embeds `codes_index_select(indexid, key, value)`: dispatch on the dynamic
type of `value` via `isinstance` (int — which includes bool — then
float, then bytes); any other type raises `RuntimeError`.  The first
component is the list of native select calls issued. -/
def codes_index_select (lib : Lib) (indexid : Nat) (key : Bytes)
    (value : PyVal) : List NativeCall × Except PyExc Unit :=
  match value with
  | .int n => codes_index_select_long lib indexid key n
  | .bool b => codes_index_select_long lib indexid key (if b then 1 else 0)
  | .float x => codes_index_select_double lib indexid key x
  | .bytes s => codes_index_select_string lib indexid key s
  | v => ([], Except.error (PyExc.RuntimeError (selectErrMsg key v)))

/-- cffi conversion `ffi.new("long []", values)`: every element must be
a Python integer (bool included); a float or any other type raises
`TypeError` at the first offending element. -/
def ffi_new_long_array : List PyVal → Except PyExc (List Int)
  | [] => Except.ok []
  | v :: vs =>
    match v with
    | .int n => (ffi_new_long_array vs).map (fun xs => n :: xs)
    | .bool b =>
        (ffi_new_long_array vs).map (fun xs => (if b then (1 : Int) else 0) :: xs)
    | _ => Except.error (PyExc.TypeError "an integer is required")

/-- cffi conversion `ffi.new("double []", values)`: floats pass through
and integers (bool included) are coerced; any other type raises
`TypeError` at the first offending element. -/
def ffi_new_double_array : List PyVal → Except PyExc (List ℚ)
  | [] => Except.ok []
  | v :: vs =>
    match v with
    | .float x => (ffi_new_double_array vs).map (fun xs => x :: xs)
    | .int n => (ffi_new_double_array vs).map (fun xs => (n : ℚ) :: xs)
    | .bool b =>
        (ffi_new_double_array vs).map
          (fun xs => (if b then (1 : ℚ) else 0) :: xs)
    | _ => Except.error (PyExc.TypeError "a float is required")

/-- Embeds `codes_set_long_array(handle, key, values)`: converts the host list
to a C `long[]`, then issues the native long-array set call wrapped in
`check_return`.  A failing conversion raises before any native call. -/
def codes_set_long_array (lib : Lib) (handle : Nat) (key : Bytes)
    (values : List PyVal) : List NativeCall × Except PyExc Unit :=
  match ffi_new_long_array values with
  | Except.error e => ([], Except.error e)
  | Except.ok c_values =>
      ([NativeCall.set_long_array handle key c_values],
       check_return lib (lib.set_long_array_ret handle key c_values))

/-- Embeds `codes_set_double_array(handle, key, values)`. -/
def codes_set_double_array (lib : Lib) (handle : Nat) (key : Bytes)
    (values : List PyVal) : List NativeCall × Except PyExc Unit :=
  match ffi_new_double_array values with
  | Except.error e => ([], Except.error e)
  | Except.ok c_values =>
      ([NativeCall.set_double_array handle key c_values],
       check_return lib (lib.set_double_array_ret handle key c_values))

/-- Embeds `codes_set_array(handle, key, values)`: an empty list raises
`ValueError`; otherwise dispatch on `values[0]` only — float first,
then int, else `TypeError`. -/
def codes_set_array (lib : Lib) (handle : Nat) (key : Bytes)
    (values : List PyVal) : List NativeCall × Except PyExc Unit :=
  match values with
  | [] => ([], Except.error (PyExc.ValueError "Cannot set an empty list."))
  | v0 :: _ =>
      if v0.isinstance_float then
        codes_set_double_array lib handle key values
      else if v0.isinstance_int then
        codes_set_long_array lib handle key values
      else
        ([], Except.error
          (PyExc.TypeError ("Unsupported value type: " ++ v0.typeName)))

/-- Embeds `codes_new_from_samples(samplename, product_kind)`: first the
Windows workaround (`portable_handle_new_from_samples`); if it yields no
handle, dispatch on the product kind (GRIB and BUFR only), then fail
with `ValueError` when the native sample instantiation returned NULL. -/
def codes_new_from_samples (lib : Lib) (samplename : Bytes)
    (product_kind : Nat) : Except PyExc Nat :=
  let handle := lib.portable_sample_handle samplename product_kind
  if handle ≠ ffi_NULL then
    Except.ok handle
  else
    let nativeHandle : Except PyExc Nat :=
      if product_kind = CODES_PRODUCT_GRIB then
        Except.ok (lib.grib_sample_handle samplename)
      else if product_kind = CODES_PRODUCT_BUFR then
        Except.ok (lib.bufr_sample_handle samplename)
      else
        Except.error (PyExc.NotImplementedError
          ("product kind not supported: " ++ toString product_kind))
    match nativeHandle with
    | Except.error e => Except.error e
    | Except.ok h =>
        if h = ffi_NULL then
          Except.error (PyExc.ValueError ("sample not found: " ++ samplename))
        else
          Except.ok h

/-- Embeds `codes_get_api_version()`: splits the native version integer into
`major.minor.patch` with Python floor division and modulo (`Int.fdiv`
and `Int.emod` match Python `//` and `%` for the positive divisor 100). -/
def codes_get_api_version (lib : Lib) : String :=
  let ver := lib.codes_get_api_version
  let patch := ver.emod 100
  let ver2 := ver.fdiv 100
  let minor := ver2.emod 100
  let major := ver2.fdiv 100
  toString major ++ "." ++ toString minor ++ "." ++ toString patch

/-- Concrete per-key ground truth used by the witness instantiations. -/
def K0 : KeyInfo where
  long_values := [3, 4]
  double_values := [1/2, 5]
  string_values := ["ab", "cd"]
  bytes_values := [7, 8, 9]
  long_scalar := 42
  double_scalar := 3/2
  string_scalar := "xyz"

/-- Concrete native-library oracle used by the witness instantiations:
success status everywhere, the real ecCodes values for the header
constants, and a small key table. -/
def L0 : Lib where
  GRIB_SUCCESS := 0
  GRIB_END_OF_FILE := -1
  GRIB_NULL_POINTER := -18
  GRIB_TYPE_UNDEFINED := 0
  GRIB_TYPE_LONG := 1
  GRIB_TYPE_DOUBLE := 2
  GRIB_TYPE_STRING := 3
  GRIB_TYPE_BYTES := 4
  GRIB_TYPE_SECTION := 5
  GRIB_TYPE_LABEL := 6
  GRIB_TYPE_MISSING := 7
  grib_get_error_message := fun c => "ecCodes error " ++ toString c
  keys := fun _ _ => K0
  native_type := fun _ k =>
    if k = "kl" then 1 else if k = "kd" then 2
    else if k = "ks" then 3 else if k = "kb" then 4 else 0
  size_out := fun _ _ => 2
  length_out := fun _ _ => 10
  get_size_ret := fun _ _ => 0
  get_length_ret := fun _ _ => 0
  get_native_type_ret := fun _ _ => 0
  get_long_array_ret := fun _ _ _ => 0
  get_double_array_ret := fun _ _ _ => 0
  get_bytes_ret := fun _ _ _ => 0
  get_string_array_ret := fun _ _ _ => 0
  get_long_ret := fun _ _ => 0
  get_double_ret := fun _ _ => 0
  get_string_ret := fun _ _ => 0
  index_select_long_ret := fun _ _ _ => 0
  index_select_double_ret := fun _ _ _ => 0
  index_select_string_ret := fun _ _ _ => 0
  set_long_array_ret := fun _ _ _ => 0
  set_double_array_ret := fun _ _ _ => 0
  grib_sample_handle := fun s => if s = "good" then 11 else 0
  bufr_sample_handle := fun s => if s = "good" then 12 else 0
  portable_sample_handle := fun s _ => if s = "win" then 99 else 0
  codes_get_api_version := 30200

/-- C6: a wrapped native call (`check_return` or `check_last`) returns
normally exactly when the status code equals `GRIB_SUCCESS`; for every
other code it raises `EcCodesError` storing that code and the native
library's descriptive string for it. -/
theorem C6_check_wrappers (lib : Lib) (code : Int) (r : Nat) :
    (code = lib.GRIB_SUCCESS →
      check_return lib code = Except.ok () ∧
      check_last lib r code = Except.ok r) ∧
    (code ≠ lib.GRIB_SUCCESS →
      check_return lib code = Except.error
        (PyExc.EcCodesError code (lib.grib_get_error_message code)) ∧
      check_last lib r code = Except.error
        (PyExc.EcCodesError code (lib.grib_get_error_message code))) := by
  refine ⟨fun h => ?_, fun h => ?_⟩ <;>
    simp [check_return, check_last, mkEcCodesError, h]

/-- Witness for C6 at concrete status codes 0 (success) and 5. -/
theorem C6_check_wrappers_witness :
    (check_return L0 0 = Except.ok () ∧
      check_last L0 7 0 = Except.ok 7) ∧
    (check_return L0 5 = Except.error
        (PyExc.EcCodesError 5 (L0.grib_get_error_message 5)) ∧
      check_last L0 7 5 = Except.error
        (PyExc.EcCodesError 5 (L0.grib_get_error_message 5))) :=
  ⟨(C6_check_wrappers L0 0 7).1 rfl, (C6_check_wrappers L0 5 7).2 (by decide)⟩

/-- C7: the guard `cloned_handle is ffi.NULL` is an identity test that
is false for every cdata freshly returned by the native clone call, so
the null-pointer raise in `codes_handle_clone` is dead code: even at
the failing input — a native clone that returns a NULL handle — the
function returns the NULL handle instead of raising the claimed
`EcCodesError(GRIB_NULL_POINTER)`. -/
theorem C7_codes_handle_clone_never_raises (lib : Lib) (cloned : Nat) :
    codes_handle_clone lib cloned = Except.ok cloned := by
  simp [codes_handle_clone, cdata_is_ffi_NULL]

/-- C1: `codes_handle_new_from_file` raises `EOFError` both when the
native call returns a NULL handle under a success status and when it
reports the `GRIB_END_OF_FILE` status code; every other non-success
status propagates as `EcCodesError` carrying that code. -/
theorem C1_codes_handle_new_from_file (lib : Lib) (fileobj : String)
    (retval : Nat) (code : Int) :
    (code = lib.GRIB_SUCCESS → retval = ffi_NULL →
      codes_handle_new_from_file lib fileobj retval code =
        Except.error (PyExc.EOFError ("End of file: " ++ fileobj))) ∧
    (code ≠ lib.GRIB_SUCCESS → code = lib.GRIB_END_OF_FILE →
      codes_handle_new_from_file lib fileobj retval code =
        Except.error (PyExc.EOFError ("End of file: " ++ fileobj))) ∧
    (code ≠ lib.GRIB_SUCCESS → code ≠ lib.GRIB_END_OF_FILE →
      codes_handle_new_from_file lib fileobj retval code =
        Except.error (PyExc.EcCodesError code
          (lib.grib_get_error_message code))) := by
  refine ⟨fun h1 h2 => ?_, fun h1 h2 => ?_, fun h1 h2 => ?_⟩
  · simp [codes_handle_new_from_file, check_last, mkEcCodesError, h1, h2]
  · subst h2
    simp [codes_handle_new_from_file, check_last, mkEcCodesError, h1]
  · simp [codes_handle_new_from_file, check_last, mkEcCodesError, h1, h2]

/-- Witness for C1: NULL handle with success status, end-of-file status,
and a generic error status, at a concrete oracle. -/
theorem C1_codes_handle_new_from_file_witness :
    codes_handle_new_from_file L0 "f" 0 0 =
      Except.error (PyExc.EOFError "End of file: f") ∧
    codes_handle_new_from_file L0 "f" 0 (-1) =
      Except.error (PyExc.EOFError "End of file: f") ∧
    codes_handle_new_from_file L0 "f" 0 (-3) =
      Except.error (PyExc.EcCodesError (-3)
        (L0.grib_get_error_message (-3))) :=
  ⟨(C1_codes_handle_new_from_file L0 "f" 0 0).1 rfl rfl,
   (C1_codes_handle_new_from_file L0 "f" 0 (-1)).2.1 (by decide) rfl,
   (C1_codes_handle_new_from_file L0 "f" 0 (-3)).2.2 (by decide) (by decide)⟩

/-- A result is a raised `TypeError`. -/
def isTypeErrorResult {α : Type} : Except PyExc α → Bool
  | Except.error (PyExc.TypeError _) => true
  | _ => false

/-- C2 (amended): `codes_index_select` routes an integer value to
exactly the native integer-select call, a float to exactly the native
double-select call, and bytes to exactly the native string-select call;
a value of any other dynamic type raises `RuntimeError` (not
`TypeError`) without issuing any native select call. -/
theorem C2_codes_index_select_routing (lib : Lib) (indexid : Nat)
    (key : Bytes) :
    (∀ n : Int, codes_index_select lib indexid key (PyVal.int n) =
        ([NativeCall.index_select_long indexid key n],
         check_return lib (lib.index_select_long_ret indexid key n))) ∧
    (∀ x : ℚ, codes_index_select lib indexid key (PyVal.float x) =
        ([NativeCall.index_select_double indexid key x],
         check_return lib (lib.index_select_double_ret indexid key x))) ∧
    (∀ s : Bytes, codes_index_select lib indexid key (PyVal.bytes s) =
        ([NativeCall.index_select_string indexid key s],
         check_return lib (lib.index_select_string_ret indexid key s))) ∧
    (∀ v : PyVal, v.isinstance_int = false → v.isinstance_float = false →
      v.isinstance_bytes = false →
      codes_index_select lib indexid key v =
        ([], Except.error (PyExc.RuntimeError (selectErrMsg key v)))) := by
  refine ⟨fun n => rfl, fun x => rfl, fun s => rfl, fun v h1 h2 h3 => ?_⟩
  cases v <;> simp_all [PyVal.isinstance_int, PyVal.isinstance_float,
    PyVal.isinstance_bytes, codes_index_select]

/-- Witness for C2 at concrete values of each dynamic type. -/
theorem C2_codes_index_select_routing_witness :
    codes_index_select L0 1 "step" (PyVal.int 6) =
      ([NativeCall.index_select_long 1 "step" 6],
       check_return L0 (L0.index_select_long_ret 1 "step" 6)) ∧
    codes_index_select L0 1 "step" (PyVal.float (1/2)) =
      ([NativeCall.index_select_double 1 "step" (1/2)],
       check_return L0 (L0.index_select_double_ret 1 "step" (1/2))) ∧
    codes_index_select L0 1 "step" (PyVal.bytes "6h") =
      ([NativeCall.index_select_string 1 "step" "6h"],
       check_return L0 (L0.index_select_string_ret 1 "step" "6h")) ∧
    codes_index_select L0 1 "step" PyVal.none_ =
      ([], Except.error (PyExc.RuntimeError (selectErrMsg "step" PyVal.none_))) :=
  ⟨(C2_codes_index_select_routing L0 1 "step").1 6,
   (C2_codes_index_select_routing L0 1 "step").2.1 (1/2),
   (C2_codes_index_select_routing L0 1 "step").2.2.1 "6h",
   (C2_codes_index_select_routing L0 1 "step").2.2.2 PyVal.none_ rfl rfl rfl⟩

/-- C2 counterexample: at an unrecognised value type the raised
exception is `RuntimeError`, not a `TypeError` as the claim states. -/
theorem C2_counterexample :
    (codes_index_select L0 1 "step" PyVal.none_).2 =
      Except.error (PyExc.RuntimeError (selectErrMsg "step" PyVal.none_)) ∧
    isTypeErrorResult (codes_index_select L0 1 "step" PyVal.none_).2 = false :=
  ⟨rfl, rfl⟩

/-- C4: `codes_set_array` on an empty sequence raises `ValueError`
without any native call; a float first element routes to the
double-array set path, an int first element to the long-array set path,
and any other first element raises `TypeError`. -/
theorem C4_codes_set_array_dispatch (lib : Lib) (handle : Nat)
    (key : Bytes) :
    codes_set_array lib handle key [] =
      ([], Except.error (PyExc.ValueError "Cannot set an empty list.")) ∧
    (∀ (v0 : PyVal) (rest : List PyVal), v0.isinstance_float = true →
      codes_set_array lib handle key (v0 :: rest) =
        codes_set_double_array lib handle key (v0 :: rest)) ∧
    (∀ (v0 : PyVal) (rest : List PyVal), v0.isinstance_int = true →
      codes_set_array lib handle key (v0 :: rest) =
        codes_set_long_array lib handle key (v0 :: rest)) ∧
    (∀ (v0 : PyVal) (rest : List PyVal), v0.isinstance_float = false →
      v0.isinstance_int = false →
      codes_set_array lib handle key (v0 :: rest) =
        ([], Except.error
          (PyExc.TypeError ("Unsupported value type: " ++ v0.typeName)))) := by
  refine ⟨rfl, fun v0 rest h => ?_, fun v0 rest h => ?_,
    fun v0 rest h1 h2 => ?_⟩ <;>
    cases v0 <;> simp_all [PyVal.isinstance_int, PyVal.isinstance_float,
      codes_set_array]

/-- Witness for C4 at concrete lists. -/
theorem C4_codes_set_array_dispatch_witness :
    codes_set_array L0 1 "values" [] =
      ([], Except.error (PyExc.ValueError "Cannot set an empty list.")) ∧
    codes_set_array L0 1 "values" [PyVal.float (1/2)] =
      codes_set_double_array L0 1 "values" [PyVal.float (1/2)] ∧
    codes_set_array L0 1 "values" [PyVal.int 3] =
      codes_set_long_array L0 1 "values" [PyVal.int 3] ∧
    codes_set_array L0 1 "values" [PyVal.str "x"] =
      ([], Except.error
        (PyExc.TypeError ("Unsupported value type: " ++
          (PyVal.str "x").typeName))) :=
  ⟨(C4_codes_set_array_dispatch L0 1 "values").1,
   (C4_codes_set_array_dispatch L0 1 "values").2.1 (PyVal.float (1/2)) [] rfl,
   (C4_codes_set_array_dispatch L0 1 "values").2.2.1 (PyVal.int 3) [] rfl,
   (C4_codes_set_array_dispatch L0 1 "values").2.2.2 (PyVal.str "x") [] rfl rfl⟩

/-- C3 counterexample: a mixed non-empty sequence (a float followed by
an int) is NOT rejected — `codes_set_array` issues the native
double-array set call and succeeds. -/
theorem C3_counterexample :
    codes_set_array L0 1 "values" [PyVal.float (1/2), PyVal.int 2] =
      ([NativeCall.set_double_array 1 "values" [1/2, 2]], Except.ok ()) := by
  simp [codes_set_array, codes_set_double_array, ffi_new_double_array,
    PyVal.isinstance_float, check_return, L0, Except.map]

/-- The value the cffi `double[]` conversion produces for a numeric
Python value. -/
def pyToDouble : PyVal → ℚ
  | .float x => x
  | .int n => (n : ℚ)
  | .bool b => if b then 1 else 0
  | _ => 0

/-- A Python value of a numeric type (int, bool or float). -/
def isNumeric (v : PyVal) : Bool :=
  v.isinstance_int || v.isinstance_float

/-- On an all-numeric list, the cffi `double[]` conversion succeeds and
coerces every element. -/
theorem ffi_new_double_array_numeric (vs : List PyVal)
    (h : ∀ v ∈ vs, isNumeric v = true) :
    ffi_new_double_array vs = Except.ok (vs.map pyToDouble) := by
  induction vs with
  | nil => rfl
  | cons v vs ih =>
      have hv := h v (List.mem_cons_self v vs)
      have hrest := ih (fun w hw => h w (List.mem_cons_of_mem v hw))
      cases v <;> simp_all [ffi_new_double_array, isNumeric,
        PyVal.isinstance_int, PyVal.isinstance_float, pyToDouble, Except.map]

/-- If some element is not a Python integer, the cffi `long[]`
conversion raises `TypeError` (so no native call is made). -/
theorem ffi_new_long_array_bad (vs : List PyVal)
    (h : ∃ v ∈ vs, v.isinstance_int = false) :
    ffi_new_long_array vs =
      Except.error (PyExc.TypeError "an integer is required") := by
  induction vs with
  | nil => simp at h
  | cons v vs ih =>
      rcases h with ⟨w, hw, hwbad⟩
      rcases List.mem_cons.mp hw with hwv | hwrest
      · subst hwv
        cases w <;> simp_all [PyVal.isinstance_int, ffi_new_long_array]
      · have hrest := ih ⟨w, hwrest, hwbad⟩
        cases v <;> simp_all [ffi_new_long_array, PyVal.isinstance_int,
          Except.map]

/-- C3 (amended): `codes_set_array` dispatches on the first element's
type only and performs no homogeneity check of its own.  A mixed
sequence headed by a float is passed to the native double-array set
call with every numeric element coerced to double; a sequence headed by
an int containing any non-integer element fails only at the cffi
`long[]` conversion (`TypeError`), before any native call. -/
theorem C3_codes_set_array_mixed (lib : Lib) (handle : Nat) (key : Bytes)
    (x : ℚ) (n : Int) (rest : List PyVal) :
    ((∀ v ∈ rest, isNumeric v = true) →
      codes_set_array lib handle key (PyVal.float x :: rest) =
        ([NativeCall.set_double_array handle key
            (x :: rest.map pyToDouble)],
         check_return lib (lib.set_double_array_ret handle key
            (x :: rest.map pyToDouble)))) ∧
    ((∃ v ∈ rest, v.isinstance_int = false) →
      codes_set_array lib handle key (PyVal.int n :: rest) =
        ([], Except.error (PyExc.TypeError "an integer is required"))) := by
  constructor
  · intro h
    have hconv : ffi_new_double_array (PyVal.float x :: rest) =
        Except.ok (x :: rest.map pyToDouble) := by
      have := ffi_new_double_array_numeric rest h
      simp [ffi_new_double_array, this, Except.map, pyToDouble]
    simp [codes_set_array, codes_set_double_array, PyVal.isinstance_float,
      hconv]
  · intro h
    have hconv := ffi_new_long_array_bad rest h
    simp [codes_set_array, codes_set_long_array, PyVal.isinstance_float,
      PyVal.isinstance_int, ffi_new_long_array, hconv, Except.map]

/-- Witness for C3: a float-headed mixed list reaches the native
double-array call; an int-headed mixed list raises `TypeError` at the
cffi conversion. -/
theorem C3_codes_set_array_mixed_witness :
    codes_set_array L0 1 "values" [PyVal.float (1/2), PyVal.int 3] =
      ([NativeCall.set_double_array 1 "values" [1/2, (3 : Int)]],
       check_return L0 (L0.set_double_array_ret 1 "values"
          [1/2, (3 : Int)])) ∧
    codes_set_array L0 1 "values" [PyVal.int 3, PyVal.float (1/2)] =
      ([], Except.error (PyExc.TypeError "an integer is required")) :=
  ⟨(C3_codes_set_array_mixed L0 1 "values" (1/2) 0 [PyVal.int 3]).1
      (by decide),
   (C3_codes_set_array_mixed L0 1 "values" 0 3 [PyVal.float (1/2)]).2
      (by refine ⟨PyVal.float (1/2), ?_, rfl⟩; simp)⟩

/-- C9: when the platform workaround yields no handle,
`codes_new_from_samples` raises `NotImplementedError` for every product
kind other than GRIB and BUFR, raises `ValueError` when the native
sample instantiation for a supported kind returns NULL, and otherwise
returns the resulting handle (also when the workaround itself yields
one). -/
theorem C9_codes_new_from_samples (lib : Lib) (name : Bytes)
    (kind : Nat) :
    (lib.portable_sample_handle name kind = ffi_NULL →
      (kind ≠ CODES_PRODUCT_GRIB → kind ≠ CODES_PRODUCT_BUFR →
        codes_new_from_samples lib name kind =
          Except.error (PyExc.NotImplementedError
            ("product kind not supported: " ++ toString kind))) ∧
      (kind = CODES_PRODUCT_GRIB → lib.grib_sample_handle name = ffi_NULL →
        codes_new_from_samples lib name kind =
          Except.error (PyExc.ValueError ("sample not found: " ++ name))) ∧
      (kind = CODES_PRODUCT_BUFR → lib.bufr_sample_handle name = ffi_NULL →
        codes_new_from_samples lib name kind =
          Except.error (PyExc.ValueError ("sample not found: " ++ name))) ∧
      (kind = CODES_PRODUCT_GRIB → lib.grib_sample_handle name ≠ ffi_NULL →
        codes_new_from_samples lib name kind =
          Except.ok (lib.grib_sample_handle name)) ∧
      (kind = CODES_PRODUCT_BUFR → lib.bufr_sample_handle name ≠ ffi_NULL →
        codes_new_from_samples lib name kind =
          Except.ok (lib.bufr_sample_handle name))) ∧
    (lib.portable_sample_handle name kind ≠ ffi_NULL →
      codes_new_from_samples lib name kind =
        Except.ok (lib.portable_sample_handle name kind)) := by
  constructor
  · intro hp
    refine ⟨fun h1 h2 => ?_, fun h1 h2 => ?_, fun h1 h2 => ?_,
      fun h1 h2 => ?_, fun h1 h2 => ?_⟩ <;>
      simp_all [codes_new_from_samples, CODES_PRODUCT_GRIB,
        CODES_PRODUCT_BUFR]
  · intro hp
    simp [codes_new_from_samples, hp]

/-- Witness for C9: unsupported kind, GRIB/BUFR sample not found,
GRIB/BUFR sample found, and the workaround path, at concrete inputs. -/
theorem C9_codes_new_from_samples_witness :
    codes_new_from_samples L0 "bad" 3 =
      Except.error (PyExc.NotImplementedError
        ("product kind not supported: " ++ toString 3)) ∧
    codes_new_from_samples L0 "bad" 1 =
      Except.error (PyExc.ValueError ("sample not found: " ++ "bad")) ∧
    codes_new_from_samples L0 "bad" 2 =
      Except.error (PyExc.ValueError ("sample not found: " ++ "bad")) ∧
    codes_new_from_samples L0 "good" 1 = Except.ok 11 ∧
    codes_new_from_samples L0 "good" 2 = Except.ok 12 ∧
    codes_new_from_samples L0 "win" 5 = Except.ok 99 :=
  ⟨((C9_codes_new_from_samples L0 "bad" 3).1 rfl).1 (by decide) (by decide),
   ((C9_codes_new_from_samples L0 "bad" 1).1 rfl).2.1 rfl (by decide),
   ((C9_codes_new_from_samples L0 "bad" 2).1 rfl).2.2.1 rfl (by decide),
   ((C9_codes_new_from_samples L0 "good" 1).1 rfl).2.2.2.1 rfl (by decide),
   ((C9_codes_new_from_samples L0 "good" 2).1 rfl).2.2.2.2 rfl (by decide),
   (C9_codes_new_from_samples L0 "win" 5).2 (by decide)⟩

/-- C10: for a non-negative native version integer `v`,
`codes_get_api_version` renders `v // 10000`, `(v // 100) % 100` and
`v % 100` as period-separated decimal components (major.minor.patch). -/
theorem C10_codes_get_api_version (lib : Lib)
    (h : 0 ≤ lib.codes_get_api_version) :
    codes_get_api_version lib =
      toString (lib.codes_get_api_version.fdiv 10000) ++ "." ++
      toString ((lib.codes_get_api_version.fdiv 100).emod 100) ++ "." ++
      toString (lib.codes_get_api_version.emod 100) := by
  have hdiv : (lib.codes_get_api_version.fdiv 100).fdiv 100 =
      lib.codes_get_api_version.fdiv 10000 := by
    rw [Int.fdiv_eq_ediv _ (by norm_num), Int.fdiv_eq_ediv _ (by norm_num),
      Int.fdiv_eq_ediv _ (by norm_num)]
    omega
  simp only [codes_get_api_version, hdiv]

/-- Witness for C10 at native version 30200, i.e. "3.2.0". -/
theorem C10_codes_get_api_version_witness :
    codes_get_api_version L0 = "3.2.0" := by
  have := C10_codes_get_api_version L0 (by decide)
  simpa using this

/-- Reading back a C output buffer yields exactly its allocation size. -/
theorem cBuffer_length {α : Type} (written : List α) (size : Nat)
    (fill : α) : (cBuffer written size fill).length = size := by
  simp [cBuffer]
  omega

/-- C5: `codes_get_array` with no explicit size uses the count returned
by `codes_get_size` as the allocation bound and returns exactly that
many elements, for each supported native array type (long, double,
string, bytes).  The native success statuses are hypotheses, and the
string case additionally assumes the native array agrees with the size
query on the element count for the key. -/
theorem C5_codes_get_array_size (lib : Lib) (h : Nat) (k : Bytes)
    (hnat : lib.get_native_type_ret h k = lib.GRIB_SUCCESS)
    (hsz : lib.get_size_ret h k = lib.GRIB_SUCCESS) :
    (lib.native_type h k = lib.GRIB_TYPE_LONG →
      lib.get_long_array_ret h k (lib.size_out h k) = lib.GRIB_SUCCESS →
      ∃ xs : List Int,
        codes_get_array lib h k none none none =
          ([], Except.ok (some (ArrayValues.longs xs))) ∧
        xs.length = lib.size_out h k) ∧
    (lib.native_type h k = lib.GRIB_TYPE_DOUBLE →
      lib.GRIB_TYPE_DOUBLE ≠ lib.GRIB_TYPE_LONG →
      lib.get_double_array_ret h k (lib.size_out h k) = lib.GRIB_SUCCESS →
      ∃ xs : List ℚ,
        codes_get_array lib h k none none none =
          ([], Except.ok (some (ArrayValues.doubles xs))) ∧
        xs.length = lib.size_out h k) ∧
    (lib.native_type h k = lib.GRIB_TYPE_STRING →
      lib.GRIB_TYPE_STRING ≠ lib.GRIB_TYPE_LONG →
      lib.GRIB_TYPE_STRING ≠ lib.GRIB_TYPE_DOUBLE →
      lib.get_length_ret h k = lib.GRIB_SUCCESS →
      lib.get_string_array_ret h k (lib.size_out h k) = lib.GRIB_SUCCESS →
      (lib.keys h k).string_values.length = lib.size_out h k →
      ∃ xs : List Bytes,
        codes_get_array lib h k none none none =
          ([], Except.ok (some (ArrayValues.strings xs))) ∧
        xs.length = lib.size_out h k) ∧
    (lib.native_type h k = lib.GRIB_TYPE_BYTES →
      lib.GRIB_TYPE_BYTES ≠ lib.GRIB_TYPE_LONG →
      lib.GRIB_TYPE_BYTES ≠ lib.GRIB_TYPE_DOUBLE →
      lib.GRIB_TYPE_BYTES ≠ lib.GRIB_TYPE_STRING →
      lib.get_bytes_ret h k (lib.size_out h k) = lib.GRIB_SUCCESS →
      ∃ xs : List Nat,
        codes_get_array lib h k none none none =
          ([], Except.ok (some (ArrayValues.bytes_ xs))) ∧
        xs.length = lib.size_out h k) := by
  refine ⟨fun hty hret => ?_, fun hty hne hret => ?_,
    fun hty hne1 hne2 hlen hret hcount => ?_,
    fun hty hne1 hne2 hne3 hret => ?_⟩
  · refine ⟨cBuffer (lib.keys h k).long_values (lib.size_out h k) 0,
      ?_, cBuffer_length _ _ _⟩
    simp [codes_get_array, codes_get_native_type, codes_get_size,
      codes_get_long_array, check_return, CODES_TYPE_LONG, hnat, hsz,
      hty, hret, Except.map]
  · refine ⟨cBuffer (lib.keys h k).double_values (lib.size_out h k) 0,
      ?_, cBuffer_length _ _ _⟩
    simp [codes_get_array, codes_get_native_type, codes_get_size,
      codes_get_double_array, check_return, CODES_TYPE_LONG,
      CODES_TYPE_DOUBLE, hnat, hsz, hty, hne, hret, Except.map]
  · refine ⟨((lib.keys h k).string_values.map
        (fun s => s.take (lib.length_out h k))).take
        (min (lib.size_out h k) (lib.keys h k).string_values.length),
      ?_, ?_⟩
    · simp [codes_get_array, codes_get_native_type, codes_get_size,
        codes_get_string_array, codes_get_length, check_return,
        CODES_TYPE_LONG, CODES_TYPE_DOUBLE, CODES_TYPE_STRING,
        hnat, hsz, hty, hne1, hne2, hlen, hret, Except.map,
        bind, Except.bind, pure, Except.pure]
    · simp [List.length_take, List.length_map, hcount]
  · refine ⟨cBuffer (lib.keys h k).bytes_values (lib.size_out h k) 0,
      ?_, cBuffer_length _ _ _⟩
    simp [codes_get_array, codes_get_native_type, codes_get_size,
      codes_get_bytes_array, check_return, CODES_TYPE_LONG,
      CODES_TYPE_DOUBLE, CODES_TYPE_STRING, CODES_TYPE_BYTES,
      hnat, hsz, hty, hne1, hne2, hne3, hret, Except.map]

/-- Witness for C5: at the concrete oracle, all four native array types
return exactly `codes_get_size`-many (= 2) elements. -/
theorem C5_codes_get_array_size_witness :
    (∃ xs : List Int, codes_get_array L0 1 "kl" none none none =
        ([], Except.ok (some (ArrayValues.longs xs))) ∧ xs.length = 2) ∧
    (∃ xs : List ℚ, codes_get_array L0 1 "kd" none none none =
        ([], Except.ok (some (ArrayValues.doubles xs))) ∧ xs.length = 2) ∧
    (∃ xs : List Bytes, codes_get_array L0 1 "ks" none none none =
        ([], Except.ok (some (ArrayValues.strings xs))) ∧ xs.length = 2) ∧
    (∃ xs : List Nat, codes_get_array L0 1 "kb" none none none =
        ([], Except.ok (some (ArrayValues.bytes_ xs))) ∧ xs.length = 2) := by
  refine ⟨?_, ?_, ?_, ?_⟩
  · simpa using (C5_codes_get_array_size L0 1 "kl" rfl rfl).1
      (by decide) rfl
  · simpa using (C5_codes_get_array_size L0 1 "kd" rfl rfl).2.1
      (by decide) (by decide) rfl
  · simpa using (C5_codes_get_array_size L0 1 "ks" rfl rfl).2.2.1
      (by decide) (by decide) (by decide) rfl rfl (by decide)
  · simpa using (C5_codes_get_array_size L0 1 "kb" rfl rfl).2.2.2
      (by decide) (by decide) (by decide) (by decide) rfl

/-- C8: for a key type that is none of the interpreted native types,
`codes_get` and `codes_get_array` log an "Unknown GRIB key type"
warning and return `None` instead of raising. -/
theorem C8_unknown_type_warns (lib : Lib) (h : Nat) (k : Bytes)
    (kt : Int) (s : Nat)
    (h1 : kt ≠ lib.GRIB_TYPE_LONG) (h2 : kt ≠ lib.GRIB_TYPE_DOUBLE)
    (h3 : kt ≠ lib.GRIB_TYPE_STRING) :
    codes_get lib h k (some kt) none =
      (["Unknown GRIB key type: " ++ toString kt], Except.ok none) ∧
    (kt ≠ lib.GRIB_TYPE_BYTES →
      codes_get_array lib h k (some kt) (some s) none =
        (["Unknown GRIB key type: " ++ toString kt], Except.ok none)) := by
  constructor
  · simp [codes_get, CODES_TYPE_LONG, CODES_TYPE_DOUBLE,
      CODES_TYPE_STRING, h1, h2, h3]
  · intro h4
    simp [codes_get_array, CODES_TYPE_LONG, CODES_TYPE_DOUBLE,
      CODES_TYPE_STRING, CODES_TYPE_BYTES, h1, h2, h3, h4]

/-- Witness for C8 at the uninterpreted key type 99. -/
theorem C8_unknown_type_warns_witness :
    codes_get L0 1 "k" (some 99) none =
      (["Unknown GRIB key type: " ++ toString (99 : Int)],
       Except.ok none) ∧
    codes_get_array L0 1 "k" (some 99) (some 2) none =
      (["Unknown GRIB key type: " ++ toString (99 : Int)],
       Except.ok none) :=
  ⟨(C8_unknown_type_warns L0 1 "k" 99 2 (by decide) (by decide)
      (by decide)).1,
   (C8_unknown_type_warns L0 1 "k" 99 2 (by decide) (by decide)
      (by decide)).2 (by decide)⟩
